import Mathlib

/-!
Shallow embedding of the `owned-window-handle` crate (`src/lib.rs`).

The crate wraps a borrowed raw window handle into an owned value by running a
platform-specific acquire at construction and a matching release at
destruction.  Platform payloads, which in Rust are raw pointers or numeric
ids, are modelled as `Nat` (with `0` standing for a null pointer).  The
`cfg`-selected target configuration is a record of booleans, and every
external collaborator (ObjC runtime, Android NDK, the DOM, wayland-backend)
is a field of an explicit environment record.  Calls that cross the FFI
boundary and affect a reference count are recorded as events, so that
acquire/release balance can be stated.  Rust panics (`unwrap`, `unreachable!`)
are a distinct outcome constructor.
-/

set_option autoImplicit false

namespace OwnedWH

/-- Target configuration: the `cfg` atoms that select code in `lib.rs`. -/
structure Target where
  android : Bool
  apple : Bool
  wasm : Bool
  unix : Bool
  redox : Bool
  waylandFeature : Bool
  deriving DecidableEq

/-- The condition under which the real `mod wayland` (lines 448-457) is
compiled: feature `wayland`, on unix, and not redox/wasm/android/apple. -/
def Target.waylandEnabled (t : Target) : Bool :=
  t.waylandFeature && t.unix && !(t.redox || t.wasm || t.android || t.apple)

/-- `raw_window_handle::RawWindowHandle`: the tagged union of platform
payloads.  `other` stands for any variant this version of the crate does not
anticipate (the `_` arm of both match statements). -/
inductive RawWindowHandle where
  | Xlib (window : Nat)
  | Xcb (window : Nat)
  | Win32 (hwnd : Nat)
  | Wayland (surface : Nat)
  | Drm (plane : Nat)
  | AndroidNdk (aNativeWindow : Nat)
  | AppKit (nsView : Nat)
  | UiKit (uiView : Nat)
  | Web (id : Nat)
  | WebCanvas (obj : Nat)
  | WebOffscreenCanvas (obj : Nat)
  | other
  deriving DecidableEq

/-- `raw_window_handle::HandleError` (the variants the crate matches on). -/
inductive HandleError where
  | NotSupported
  | Unavailable
  | otherHandleError
  deriving DecidableEq

/-- `Repr`, the crate's error representation (lines 391-415); the public
`Error` struct is a newtype over it. -/
inductive Error where
  | Raw (e : HandleError)
  | PlatformMismatch (expected : String)
  | MissingWebElements
  | CanvasNotFound (id : Nat)
  | RetainFailed
  | WaylandNotEnabled
  | WaylandNotRust
  deriving DecidableEq

/-- FFI calls that change a platform reference count, recorded as events. -/
inductive Event where
  | androidAcquire (p : Nat)
  | androidRelease (p : Nat)
  | appleRetain (p : Nat)
  | appleRelease (p : Nat)
  | webQuery (selector : String)
  | webAcquire (obj : Nat)
  | webRelease (obj : Nat)
  deriving DecidableEq

/-- Result of running a piece of Rust code: a value, an `Err` return, or a
panic (`unwrap` on `Err`, or `unreachable!`). -/
inductive Outcome (α : Type) where
  | ok (a : α)
  | err (e : Error)
  | fatal (msg : String)
  deriving DecidableEq

/-- The external world: ObjC runtime, DOM, and wayland-backend primitives the
crate calls into.  Pointers/ids are `Nat`, `0` meaning null. -/
structure Env where
  /-- `objc2::msg_send![view, retain]`: the pointer returned by retain. -/
  retain : Nat → Nat
  /-- `web_sys::window()` is `Some`. -/
  hasWindow : Bool
  /-- `window().document()` is `Some`. -/
  hasDocument : Bool
  /-- `document.query_selector(s)`: `Except.error` models the DOM throwing
  (which `query_selector` does exactly when the selector is invalid),
  `Except.ok none` no match, `Except.ok (some e)` the matched element. -/
  querySelector : String → Except Unit (Option Nat)
  /-- `element.into_abi()`: ABI index of an owned element. -/
  intoAbi : Nat → Nat
  /-- `HtmlCanvasElement::ref_from_abi(obj).clone().into_abi()`. -/
  cloneCanvas : Nat → Nat
  /-- `OffscreenCanvas::ref_from_abi(obj).clone().into_abi()`. -/
  cloneOffscreen : Nat → Nat
  /-- `backend_from_ptr`: recover the `Backend` from a `wl_proxy` pointer. -/
  backendFromPtr : Nat → Nat
  /-- `ObjectId::from_ptr(wl_surface interface, ptr)`: `none` on error. -/
  objectIdFromPtr : Nat → Option Nat
  /-- `backend.get_data(id).is_ok()`. -/
  getDataOk : Nat → Nat → Bool
  /-- `id.as_ptr()` for a tracked object id (`0` = null). -/
  idAsPtr : Nat → Nat

/-- The tracked Wayland handle of the enabled `mod wayland`: a backend
reference plus the object id (lines 464-470). -/
structure WaylandHandle where
  backend : Nat
  id : Nat
  deriving DecidableEq

/-- `Impl`, the underlying representation of `OwnedWindowHandle`: either a
static refcounted handle or a tracked Wayland object. -/
inductive Impl where
  | Direct (handle : RawWindowHandle)
  | Wayland (h : WaylandHandle)
  deriving DecidableEq

/-- The selector string built at line 233:
`format!("canvas[data-raw-handle=\"{}\"", web.id)`.  Note the format string
closes the quote but not the `[` bracket. -/
def webSelector (id : Nat) : String :=
  "canvas[data-raw-handle=\"" ++ toString id ++ "\""

/-- `wayland::clone_handle` of the enabled module (lines 473-494): recover
the backend, build the object id (failure means not a wayland-backend
object), then check provenance via `get_data`. -/
def cloneHandle (env : Env) (ptr : Nat) : Except Error WaylandHandle :=
  let backend := env.backendFromPtr ptr
  match env.objectIdFromPtr ptr with
  | none => .error .WaylandNotRust
  | some id =>
    if env.getDataOk backend id then .ok ⟨backend, id⟩
    else .error .WaylandNotRust

/-- The `WaylandHandle` type of the disabled `mod wayland` (line 431):
`core::convert::Infallible`, an uninhabited type. -/
def WaylandHandleDisabled := Empty

/-- `wayland::clone_handle` of the disabled module (lines 434-438). -/
def cloneHandleDisabled (ptr : Nat) : Except Error WaylandHandleDisabled :=
  let _ := ptr
  .error .WaylandNotEnabled

/-- `wayland::as_ptr` of the disabled module (lines 441-445): the empty
match `match *handle {}`. -/
def asPtrDisabled (h : WaylandHandleDisabled) : Except HandleError RawWindowHandle :=
  h.elim

/-- `inc_refcount` (lines 135-284), parameterised by target configuration
and environment.  Returns the FFI refcount events performed and the outcome.
In the disabled-Wayland configuration the Wayland arm goes through
`cloneHandleDisabled`, whose `ok` payload is uninhabited. -/
def incRefcount (t : Target) (env : Env) (raw : RawWindowHandle) :
    List Event × Outcome Impl :=
  match raw with
  | .Xlib w => ([], .ok (.Direct (.Xlib w)))
  | .Xcb w => ([], .ok (.Direct (.Xcb w)))
  | .Win32 w => ([], .ok (.Direct (.Win32 w)))
  | .Wayland p =>
    if t.waylandEnabled then
      match cloneHandle env p with
      | .ok h => ([], .ok (.Wayland h))
      | .error e => ([], .err e)
    else
      match cloneHandleDisabled p with
      | .ok h => h.elim
      | .error e => ([], .err e)
  | .Drm d => ([], .ok (.Direct (.Drm d)))
  | .AndroidNdk p =>
    if t.android then
      ([.androidAcquire p], .ok (.Direct (.AndroidNdk p)))
    else
      ([], .err (.PlatformMismatch "android"))
  | .AppKit p =>
    if t.apple then
      let view := env.retain p
      if view = 0 then ([.appleRetain p], .err .RetainFailed)
      else ([.appleRetain p], .ok (.Direct (.AppKit view)))
    else
      ([], .err (.PlatformMismatch "apple"))
  | .UiKit p =>
    if t.apple then
      let view := env.retain p
      if view = 0 then ([.appleRetain p], .err .RetainFailed)
      else ([.appleRetain p], .ok (.Direct (.UiKit view)))
    else
      ([], .err (.PlatformMismatch "apple"))
  | .Web id =>
    if t.wasm then
      if env.hasWindow && env.hasDocument then
        match env.querySelector (webSelector id) with
        | .error _ => ([.webQuery (webSelector id)], .fatal "query_selector unwrap")
        | .ok none => ([.webQuery (webSelector id)], .err (.CanvasNotFound id))
        | .ok (some canvas) =>
          ([.webQuery (webSelector id), .webAcquire (env.intoAbi canvas)],
            .ok (.Direct (.WebCanvas (env.intoAbi canvas))))
      else
        ([], .err .MissingWebElements)
    else
      ([], .err (.PlatformMismatch "wasm"))
  | .WebCanvas obj =>
    if t.wasm then
      ([.webAcquire (env.cloneCanvas obj)], .ok (.Direct (.WebCanvas (env.cloneCanvas obj))))
    else
      ([], .err (.PlatformMismatch "wasm"))
  | .WebOffscreenCanvas obj =>
    if t.wasm then
      ([.webAcquire (env.cloneOffscreen obj)],
        .ok (.Direct (.WebOffscreenCanvas (env.cloneOffscreen obj))))
    else
      ([], .err (.PlatformMismatch "wasm"))
  | .other => ([], .err (.Raw .NotSupported))

/-- `dec_refcount` (lines 286-386). -/
def decRefcount (t : Target) (raw : RawWindowHandle) : List Event × Outcome Unit :=
  match raw with
  | .Xlib _ => ([], .ok ())
  | .Xcb _ => ([], .ok ())
  | .Win32 _ => ([], .ok ())
  | .Wayland _ => ([], .fatal "inc_refcount never creates this variant")
  | .Drm _ => ([], .ok ())
  | .AndroidNdk p =>
    if t.android then ([.androidRelease p], .ok ())
    else ([], .err (.PlatformMismatch "android"))
  | .AppKit p =>
    if t.apple then ([.appleRelease p], .ok ())
    else ([], .err (.PlatformMismatch "apple"))
  | .UiKit p =>
    if t.apple then ([.appleRelease p], .ok ())
    else ([], .err (.PlatformMismatch "apple"))
  | .Web _ => ([], .fatal "inc_refcount never constructs this variant")
  | .WebCanvas obj =>
    if t.wasm then ([.webRelease obj], .ok ())
    else ([], .err (.PlatformMismatch "wasm"))
  | .WebOffscreenCanvas obj =>
    if t.wasm then ([.webRelease obj], .ok ())
    else ([], .err (.PlatformMismatch "wasm"))
  | .other => ([], .err (.Raw .NotSupported))

/-- `OwnedWindowHandle::try_clone` (lines 59-73): for a `Direct` handle,
re-run `inc_refcount` on the stored payload; for Wayland, clone the tracked
pair with no platform call. -/
def tryClone (t : Target) (env : Env) (i : Impl) : List Event × Outcome Impl :=
  match i with
  | .Direct h => incRefcount t env h
  | .Wayland w => ([], .ok (.Wayland w))

/-- `wayland::as_ptr` of the enabled module (lines 497-509): translate the
tracked id back to a pointer; fail with `Unavailable` if null. -/
def waylandAsPtr (env : Env) (w : WaylandHandle) : Except HandleError RawWindowHandle :=
  if env.idAsPtr w.id = 0 then .error .Unavailable
  else .ok (.Wayland (env.idAsPtr w.id))

/-- `HasWindowHandle for OwnedWindowHandle` (lines 88-96): the borrow
operation producing a transient view. -/
def windowHandle (env : Env) (i : Impl) : Except HandleError RawWindowHandle :=
  match i with
  | .Direct h => .ok h
  | .Wayland w => waylandAsPtr env w

/-- `Drop for OwnedWindowHandle` (lines 76-86): release the `Direct` handle;
with `debug_assertions` on, `unwrap` the result (a panic on `Err`). -/
def dropImpl (dbg : Bool) (t : Target) (i : Impl) : List Event × Outcome Unit :=
  match i with
  | .Direct h =>
    match decRefcount t h with
    | (evs, .ok _) => (evs, .ok ())
    | (evs, .err e) =>
      if dbg then (evs, .fatal "called unwrap on an Err value")
      else
        let _ := e
        (evs, .ok ())
    | (evs, .fatal m) => (evs, .fatal m)
  | .Wayland _ => ([], .ok ())

/-- Number of refcount-incrementing FFI calls in an event list. -/
def acqCount (evs : List Event) : Nat :=
  (evs.filter fun e =>
    match e with
    | .androidAcquire _ => true
    | .appleRetain _ => true
    | .webAcquire _ => true
    | _ => false).length

/-- Number of refcount-decrementing FFI calls in an event list. -/
def relCount (evs : List Event) : Nat :=
  (evs.filter fun e =>
    match e with
    | .androidRelease _ => true
    | .appleRelease _ => true
    | .webRelease _ => true
    | _ => false).length

/-- A Linux-like target: unix, wayland feature on, nothing else. -/
def linuxTarget : Target := ⟨false, false, false, true, false, true⟩

/-- A wasm target. -/
def wasmTarget : Target := ⟨false, false, true, false, false, false⟩

/-- An Android target. -/
def androidTarget : Target := ⟨true, false, false, true, false, false⟩

/-- An Apple target. -/
def appleTarget : Target := ⟨false, true, false, true, false, false⟩

/-- A benign environment: retain returns its argument, the document exists
but holds no canvas, wayland-backend recognises every pointer. -/
def env0 : Env :=
  ⟨fun p => p, true, true, fun _ => .ok none, fun e => e, fun o => o + 1,
    fun o => o + 1, fun _ => 1, fun p => some p, fun _ _ => true, fun i => i⟩

/-- The spec's selector for a web id handle:
`canvas[data-raw-handle="<id>"]`, with the attribute bracket closed. -/
def specSelector (id : Nat) : String :=
  "canvas[data-raw-handle=\"" ++ toString id ++ "\"]"

/-- A standards-following DOM with a window and a document but no matching
canvas: `query_selector` accepts the crate's selector — the missing `]` is
auto-closed at end of input by CSS block parsing, so the selector is valid
and `query_selector` does not throw — and finds no element. -/
def domEnv : Env :=
  ⟨fun p => p, true, true, fun _ => .ok none, fun e => e, fun o => o + 1,
    fun o => o + 1, fun _ => 1, fun p => some p, fun _ _ => true, fun i => i⟩

/-- Like `env0` but retain never returns null, matching the ObjC contract
that `retain` on a valid object returns the object. -/
def env1 : Env :=
  ⟨fun p => p + 1, true, true, fun _ => .ok none, fun e => e, fun o => o + 1,
    fun o => o + 1, fun _ => 1, fun p => some p, fun _ _ => true, fun i => i⟩

/-- Like `env0` but wayland-backend's `get_data` rejects every object:
foreign (non-Rust) Wayland surfaces. -/
def envNoData : Env :=
  ⟨fun p => p, true, true, fun _ => .ok none, fun e => e, fun o => o + 1,
    fun o => o + 1, fun _ => 1, fun p => some p, fun _ _ => false, fun i => i⟩

/-- The payload shapes `inc_refcount` can store in `Impl::Direct` when the
target configuration is `t`. -/
def directInvariant (t : Target) (h : RawWindowHandle) : Bool :=
  match h with
  | .Xlib _ => true
  | .Xcb _ => true
  | .Win32 _ => true
  | .Drm _ => true
  | .AndroidNdk _ => t.android
  | .AppKit _ => t.apple
  | .UiKit _ => t.apple
  | .WebCanvas _ => t.wasm
  | .WebOffscreenCanvas _ => t.wasm
  | _ => false

/-- Number of platform acquire calls a stored `Direct` payload accounts
for: one on the refcounted platforms, zero on the numeric-id ones. -/
def acqNeed (h : RawWindowHandle) : Nat :=
  match h with
  | .AndroidNdk _ => 1
  | .AppKit _ => 1
  | .UiKit _ => 1
  | .WebCanvas _ => 1
  | .WebOffscreenCanvas _ => 1
  | _ => 0

theorem inc_ok_invariant {t : Target} {env : Env} {raw : RawWindowHandle}
    {evs : List Event} {h : RawWindowHandle}
    (hinc : incRefcount t env raw = (evs, .ok (.Direct h))) :
    directInvariant t h = true ∧ acqCount evs = acqNeed h := by
  cases raw <;> simp only [incRefcount, cloneHandleDisabled] at hinc <;>
    repeat' split at hinc
  all_goals simp at hinc
  all_goals obtain ⟨rfl, rfl⟩ := hinc
  all_goals simp_all [directInvariant, acqNeed, acqCount]

theorem inc_ok_wayland {t : Target} {env : Env} {raw : RawWindowHandle}
    {evs : List Event} {w : WaylandHandle}
    (hinc : incRefcount t env raw = (evs, .ok (.Wayland w))) :
    evs = [] ∧ t.waylandEnabled = true ∧
      ∃ p, raw = .Wayland p ∧ cloneHandle env p = .ok w := by
  cases raw <;> simp only [incRefcount, cloneHandleDisabled] at hinc <;>
    repeat' split at hinc
  all_goals simp_all

theorem dec_of_invariant {t : Target} {h : RawWindowHandle}
    (hd : directInvariant t h = true) :
    (decRefcount t h).2 = .ok () ∧ relCount (decRefcount t h).1 = acqNeed h := by
  cases h <;> simp_all [decRefcount, directInvariant, acqNeed, relCount]

theorem inc_rel_zero (t : Target) (env : Env) (raw : RawWindowHandle) :
    relCount (incRefcount t env raw).1 = 0 := by
  cases raw <;> simp only [incRefcount, cloneHandleDisabled] <;>
    repeat' split
  all_goals simp [relCount]

theorem dec_acq_zero (t : Target) (h : RawWindowHandle) :
    acqCount (decRefcount t h).1 = 0 := by
  cases h <;> simp only [decRefcount] <;> repeat' split
  all_goals simp [acqCount]

theorem inc_acq_of_invariant {t : Target} {h : RawWindowHandle} (env : Env)
    (hd : directInvariant t h = true) :
    acqCount (incRefcount t env h).1 = acqNeed h := by
  cases h <;> simp_all [incRefcount, directInvariant, acqNeed] <;>
    repeat' split
  all_goals simp [acqCount]

theorem dropImpl_of_dec_ok {t : Target} {h : RawWindowHandle} (dbg : Bool)
    (hok : (decRefcount t h).2 = .ok ()) :
    dropImpl dbg t (.Direct h) = ((decRefcount t h).1, .ok ()) := by
  rcases hd : decRefcount t h with ⟨revs, r⟩
  rw [hd] at hok
  simp at hok
  subst hok
  simp [dropImpl, hd]

theorem clone_succeeds {t : Target} {h : RawWindowHandle} {env : Env}
    (hd : directInvariant t h = true) (hret : ∀ p, env.retain p ≠ 0) :
    ∃ evs2 h2, incRefcount t env h = (evs2, .ok (.Direct h2)) := by
  cases h <;> simp_all [incRefcount, directInvariant]

/-- Like `domEnv` but with no window object, as in a worker without a DOM. -/
def domEnvNoWindow : Env :=
  ⟨fun p => p, false, true, fun _ => .ok none, fun e => e, fun o => o + 1,
    fun o => o + 1, fun _ => 1, fun p => some p, fun _ _ => true, fun i => i⟩

/-- Like `domEnv` but the document holds a matching canvas, element 7. -/
def domEnvFound : Env :=
  ⟨fun p => p, true, true, fun _ => .ok (some 7), fun e => e, fun o => o + 1,
    fun o => o + 1, fun _ => 1, fun p => some p, fun _ _ => true, fun i => i⟩

/-- C2 (counterexample): at id 0 on wasm with a standards-following DOM
holding no matching canvas, the document is queried with
`canvas[data-raw-handle="0"` — not with the spec's exact selector
`canvas[data-raw-handle="0"]` — and construction returns
`CanvasNotFound(0)`. -/
theorem web_selector_not_exact_cex :
    incRefcount wasmTarget domEnv (RawWindowHandle.Web 0)
      = ([Event.webQuery "canvas[data-raw-handle=\"0\""],
          Outcome.err (Error.CanvasNotFound 0)) ∧
    "canvas[data-raw-handle=\"0\"" ≠ specSelector 0 ∧
    (incRefcount wasmTarget domEnv (RawWindowHandle.Web 0)).1
      ≠ [Event.webQuery (specSelector 0)] :=
  ⟨by decide, by decide, by decide⟩

/-- C2 (amended): on a wasm target, acquiring a web id-only handle queries
the document with the selector `canvas[data-raw-handle="<id>"` — the format
string at line 233 omits the closing `]`, so the query string is not
exactly the spec's selector, though a standards-following DOM auto-closes
it at end of input into the equivalent attribute selector — fails with
`CanvasNotFound(id)` when no element matches, and fails with
`MissingWebElements` when the window or document is unavailable. -/
theorem web_acquire_spec (t : Target) (env : Env) (id : Nat)
    (ht : t.wasm = true) :
    webSelector id = "canvas[data-raw-handle=\"" ++ toString id ++ "\"" ∧
    webSelector id ≠ specSelector id ∧
    (env.hasWindow = false ∨ env.hasDocument = false →
      incRefcount t env (.Web id) = ([], .err .MissingWebElements)) ∧
    (env.hasWindow = true → env.hasDocument = true →
      env.querySelector (webSelector id) = .ok none →
      incRefcount t env (.Web id)
        = ([.webQuery (webSelector id)], .err (.CanvasNotFound id))) ∧
    (∀ c, env.hasWindow = true → env.hasDocument = true →
      env.querySelector (webSelector id) = .ok (some c) →
      incRefcount t env (.Web id)
        = ([.webQuery (webSelector id), .webAcquire (env.intoAbi c)],
          .ok (.Direct (.WebCanvas (env.intoAbi c))))) := by
  refine ⟨rfl, ?_, fun hmiss => ?_, fun hw hd hsel => ?_, fun c hw hd hsel => ?_⟩
  · intro heq
    apply_fun String.length at heq
    simp [webSelector, specSelector, String.length_append] at heq
    exact absurd heq (by decide)
  · rcases hmiss with hmiss | hmiss <;> simp [incRefcount, ht, hmiss]
  · simp [incRefcount, ht, hw, hd, hsel]
  · simp [incRefcount, ht, hw, hd, hsel]

theorem web_acquire_spec_witness :
    webSelector 3 ≠ specSelector 3 ∧
    incRefcount wasmTarget domEnvNoWindow (RawWindowHandle.Web 3)
      = ([], Outcome.err Error.MissingWebElements) ∧
    incRefcount wasmTarget domEnv (RawWindowHandle.Web 3)
      = ([Event.webQuery (webSelector 3)], Outcome.err (Error.CanvasNotFound 3)) ∧
    incRefcount wasmTarget domEnvFound (RawWindowHandle.Web 3)
      = ([Event.webQuery (webSelector 3), Event.webAcquire 7],
          Outcome.ok (Impl.Direct (RawWindowHandle.WebCanvas 7))) :=
  ⟨(web_acquire_spec wasmTarget domEnv 3 rfl).2.1,
    (web_acquire_spec wasmTarget domEnvNoWindow 3 rfl).2.2.1 (Or.inl rfl),
    (web_acquire_spec wasmTarget domEnv 3 rfl).2.2.2.1 rfl rfl rfl,
    (web_acquire_spec wasmTarget domEnvFound 3 rfl).2.2.2.2 7 rfl rfl rfl⟩

/-- C3 (counterexample): for the `Web` id variant on a non-wasm target,
`dec_refcount` does not return `PlatformMismatch "wasm"`; it hits the
unconditional `unreachable!` at line 354. -/
theorem web_release_unreachable_cex :
    decRefcount linuxTarget (RawWindowHandle.Web 0)
      = ([], Outcome.fatal "inc_refcount never constructs this variant") ∧
    (decRefcount linuxTarget (RawWindowHandle.Web 0)).2
      ≠ Outcome.err (Error.PlatformMismatch "wasm") :=
  ⟨rfl, by decide⟩

/-- C3 (amended): for Android on non-Android, AppKit/UiKit on non-Apple and
WebCanvas/WebOffscreenCanvas on non-wasm, acquire and release both return
`PlatformMismatch` with the identical expected-platform string; for the
`Web` id variant on non-wasm, acquire returns `PlatformMismatch "wasm"` but
release panics as unreachable, since acquire never stores that variant. -/
theorem platform_mismatch_symmetric (t : Target) (env : Env) :
    (t.android = false → ∀ p,
      (incRefcount t env (.AndroidNdk p)).2 = .err (.PlatformMismatch "android") ∧
      (decRefcount t (.AndroidNdk p)).2 = .err (.PlatformMismatch "android")) ∧
    (t.apple = false → ∀ p,
      ((incRefcount t env (.AppKit p)).2 = .err (.PlatformMismatch "apple") ∧
        (decRefcount t (.AppKit p)).2 = .err (.PlatformMismatch "apple")) ∧
      ((incRefcount t env (.UiKit p)).2 = .err (.PlatformMismatch "apple") ∧
        (decRefcount t (.UiKit p)).2 = .err (.PlatformMismatch "apple"))) ∧
    (t.wasm = false → ∀ n,
      ((incRefcount t env (.WebCanvas n)).2 = .err (.PlatformMismatch "wasm") ∧
        (decRefcount t (.WebCanvas n)).2 = .err (.PlatformMismatch "wasm")) ∧
      ((incRefcount t env (.WebOffscreenCanvas n)).2 = .err (.PlatformMismatch "wasm") ∧
        (decRefcount t (.WebOffscreenCanvas n)).2 = .err (.PlatformMismatch "wasm")) ∧
      ((incRefcount t env (.Web n)).2 = .err (.PlatformMismatch "wasm") ∧
        (decRefcount t (.Web n)).2 = .fatal "inc_refcount never constructs this variant")) := by
  refine ⟨fun ha p => ?_, fun ha p => ?_, fun ha n => ?_⟩ <;>
    simp [incRefcount, decRefcount, ha]

theorem platform_mismatch_symmetric_witness :
    (incRefcount linuxTarget env0 (RawWindowHandle.AndroidNdk 5)).2
      = Outcome.err (Error.PlatformMismatch "android") ∧
    (decRefcount linuxTarget (RawWindowHandle.AndroidNdk 5)).2
      = Outcome.err (Error.PlatformMismatch "android") ∧
    (incRefcount linuxTarget env0 (RawWindowHandle.Web 9)).2
      = Outcome.err (Error.PlatformMismatch "wasm") ∧
    (decRefcount linuxTarget (RawWindowHandle.Web 9)).2
      = Outcome.fatal "inc_refcount never constructs this variant" :=
  ⟨((platform_mismatch_symmetric linuxTarget env0).1 rfl 5).1,
    ((platform_mismatch_symmetric linuxTarget env0).1 rfl 5).2,
    ((platform_mismatch_symmetric linuxTarget env0).2.2 rfl 9).2.2.1,
    ((platform_mismatch_symmetric linuxTarget env0).2.2 rfl 9).2.2.2⟩

/-- C6: borrowing from a non-Wayland (`Direct`) instance always succeeds
and returns exactly the stored (originally acquired) handle; borrowing from
a Wayland instance fails with `Unavailable` exactly when the tracked id's
pointer is null, and otherwise succeeds with that pointer. -/
theorem borrow_spec :
    (∀ (env : Env) (h : RawWindowHandle),
      windowHandle env (Impl.Direct h) = Except.ok h) ∧
    (∀ (env : Env) (w : WaylandHandle),
      windowHandle env (Impl.Wayland w) = Except.error HandleError.Unavailable ↔
        env.idAsPtr w.id = 0) ∧
    (∀ (env : Env) (w : WaylandHandle), env.idAsPtr w.id ≠ 0 →
      windowHandle env (Impl.Wayland w)
        = Except.ok (RawWindowHandle.Wayland (env.idAsPtr w.id))) := by
  refine ⟨fun env h => rfl, fun env w => ?_, fun env w hne => ?_⟩ <;>
    by_cases hc : env.idAsPtr w.id = 0 <;>
    simp_all [windowHandle, waylandAsPtr]

theorem borrow_spec_witness :
    windowHandle env0 (Impl.Direct (RawWindowHandle.Xlib 7))
      = Except.ok (RawWindowHandle.Xlib 7) ∧
    windowHandle env0 (Impl.Wayland ⟨1, 0⟩) = Except.error HandleError.Unavailable ∧
    windowHandle env0 (Impl.Wayland ⟨1, 2⟩) = Except.ok (RawWindowHandle.Wayland 2) :=
  ⟨borrow_spec.1 env0 (RawWindowHandle.Xlib 7),
    (borrow_spec.2.1 env0 ⟨1, 0⟩).mpr rfl,
    borrow_spec.2.2 env0 ⟨1, 2⟩ (by decide)⟩

/-- C7: `Drop` runs `dec_refcount` exactly once for a `Direct` instance
(and nothing for a Wayland one); a release failure discovered there is a
fatal `unwrap` with `debug_assertions` and silently discarded without; and
construction and clone never panic — their failures are returned as values
— given the DOM contract that `query_selector` accepts the crate's
selector (CSS auto-closes the unclosed bracket at end of input, so it
never throws on it). -/
theorem error_model_spec (t : Target) (env : Env)
    (hq : ∀ id, env.querySelector (webSelector id) ≠ Except.error ()) :
    (∀ (raw : RawWindowHandle) (msg : String),
      (incRefcount t env raw).2 ≠ Outcome.fatal msg) ∧
    (∀ (i : Impl) (msg : String), (tryClone t env i).2 ≠ Outcome.fatal msg) ∧
    (∀ (h : RawWindowHandle) (dbg : Bool),
      (dropImpl dbg t (Impl.Direct h)).1 = (decRefcount t h).1) ∧
    (∀ (w : WaylandHandle) (dbg : Bool),
      dropImpl dbg t (Impl.Wayland w) = ([], Outcome.ok ())) ∧
    (∀ (h : RawWindowHandle) (e : Error), (decRefcount t h).2 = Outcome.err e →
      (dropImpl true t (Impl.Direct h)).2
          = Outcome.fatal "called unwrap on an Err value" ∧
      (dropImpl false t (Impl.Direct h)).2 = Outcome.ok ()) ∧
    (∀ (h : RawWindowHandle), (decRefcount t h).2 = Outcome.ok () →
      ∀ dbg, (dropImpl dbg t (Impl.Direct h)).2 = Outcome.ok ()) := by
  have hincf : ∀ (raw : RawWindowHandle) (msg : String),
      (incRefcount t env raw).2 ≠ Outcome.fatal msg := by
    intro raw msg
    cases raw <;> simp only [incRefcount, cloneHandleDisabled] <;> repeat' split
    all_goals simp_all
  refine ⟨hincf, ?_, ?_, fun w dbg => rfl, fun h e hdec => ?_, fun h hdec dbg => ?_⟩
  · intro i msg
    cases i with
    | Direct h => exact hincf h msg
    | Wayland w => simp [tryClone]
  · intro h dbg
    rcases hd : decRefcount t h with ⟨revs, r⟩
    cases r <;> cases dbg <;> simp [dropImpl, hd]
  · rcases hd : decRefcount t h with ⟨revs, r⟩
    rw [hd] at hdec
    simp at hdec
    subst hdec
    simp [dropImpl, hd]
  · rw [(dropImpl_of_dec_ok dbg hdec : dropImpl dbg t (Impl.Direct h) = _)]

theorem error_model_spec_witness :
    (incRefcount wasmTarget domEnv (RawWindowHandle.Web 1)).2
      ≠ Outcome.fatal "query_selector unwrap" ∧
    (tryClone wasmTarget domEnv (Impl.Direct (RawWindowHandle.Web 1))).2
      ≠ Outcome.fatal "query_selector unwrap" ∧
    (dropImpl true wasmTarget (Impl.Direct (RawWindowHandle.AndroidNdk 5))).1
      = (decRefcount wasmTarget (RawWindowHandle.AndroidNdk 5)).1 ∧
    dropImpl true wasmTarget (Impl.Wayland ⟨1, 2⟩) = ([], Outcome.ok ()) ∧
    ((dropImpl true wasmTarget (Impl.Direct (RawWindowHandle.AndroidNdk 5))).2
        = Outcome.fatal "called unwrap on an Err value" ∧
      (dropImpl false wasmTarget (Impl.Direct (RawWindowHandle.AndroidNdk 5))).2
        = Outcome.ok ()) ∧
    (dropImpl true wasmTarget (Impl.Direct (RawWindowHandle.WebCanvas 3))).2
      = Outcome.ok () :=
  have ht := error_model_spec wasmTarget domEnv
    (fun id => by simp [domEnv])
  ⟨ht.1 (RawWindowHandle.Web 1) "query_selector unwrap",
    ht.2.1 (Impl.Direct (RawWindowHandle.Web 1)) "query_selector unwrap",
    ht.2.2.1 (RawWindowHandle.AndroidNdk 5) true,
    ht.2.2.2.1 ⟨1, 2⟩ true,
    ht.2.2.2.2.1 (RawWindowHandle.AndroidNdk 5) (Error.PlatformMismatch "android") rfl,
    ht.2.2.2.2.2 (RawWindowHandle.WebCanvas 3) rfl true⟩

/-- C8: with the Wayland capability compiled out, the Wayland handle type
is `Infallible` (uninhabited), `clone_handle` always fails with
`WaylandNotEnabled`, so construction from a Wayland raw handle fails with
`WaylandNotEnabled` and no live value can be a Wayland variant. -/
theorem wayland_disabled_spec :
    IsEmpty WaylandHandleDisabled ∧
    (∀ p, cloneHandleDisabled p = Except.error Error.WaylandNotEnabled) ∧
    (∀ (t : Target) (env : Env) (p : Nat), t.waylandEnabled = false →
      incRefcount t env (RawWindowHandle.Wayland p)
        = ([], Outcome.err Error.WaylandNotEnabled)) ∧
    (∀ (t : Target) (env : Env) (raw : RawWindowHandle) (evs : List Event)
      (w : WaylandHandle), t.waylandEnabled = false →
      incRefcount t env raw ≠ (evs, Outcome.ok (Impl.Wayland w))) := by
  refine ⟨⟨fun h => h.elim⟩, fun p => rfl, fun t env p hw => ?_,
    fun t env raw evs w hw hinc => ?_⟩
  · simp [incRefcount, cloneHandleDisabled, hw]
  · obtain ⟨-, hen, -⟩ := inc_ok_wayland hinc
    rw [hw] at hen
    exact Bool.false_ne_true hen

theorem wayland_disabled_spec_witness :
    incRefcount wasmTarget env0 (RawWindowHandle.Wayland 5)
      = ([], Outcome.err Error.WaylandNotEnabled) ∧
    incRefcount wasmTarget env0 (RawWindowHandle.Wayland 5)
      ≠ ([], Outcome.ok (Impl.Wayland ⟨1, 1⟩)) :=
  ⟨wayland_disabled_spec.2.2.1 wasmTarget env0 5 rfl,
    wayland_disabled_spec.2.2.2 wasmTarget env0 (RawWindowHandle.Wayland 5) [] ⟨1, 1⟩ rfl⟩

/-- C9: on the numeric-id platforms (Xlib, XCB, Win32, DRM) acquire
performs no platform call and stores the payload unchanged, and release
performs no platform call and returns `Ok(())`, on every target. -/
theorem numeric_platforms_noop (t : Target) (env : Env) (n : Nat) :
    incRefcount t env (.Xlib n) = ([], .ok (.Direct (.Xlib n))) ∧
    decRefcount t (.Xlib n) = ([], .ok ()) ∧
    incRefcount t env (.Xcb n) = ([], .ok (.Direct (.Xcb n))) ∧
    decRefcount t (.Xcb n) = ([], .ok ()) ∧
    incRefcount t env (.Win32 n) = ([], .ok (.Direct (.Win32 n))) ∧
    decRefcount t (.Win32 n) = ([], .ok ()) ∧
    incRefcount t env (.Drm n) = ([], .ok (.Direct (.Drm n))) ∧
    decRefcount t (.Drm n) = ([], .ok ()) :=
  ⟨rfl, rfl, rfl, rfl, rfl, rfl, rfl, rfl⟩

/-- C1: for every handle accepted by construction, the platform acquire for
the stored payload is performed exactly once at construction (one call on
the refcounting platforms, zero on the numeric-id ones, never more) and no
release; destruction performs exactly the matching number of release calls,
no acquires, and succeeds; cloning performs its own acquire — the same
count as the original construction — and no release, independent of the
original instance. -/
theorem acquire_release_balanced (t : Target) (env : Env) (dbg : Bool)
    (raw : RawWindowHandle) (evs : List Event) (impl : Impl)
    (hinc : incRefcount t env raw = (evs, Outcome.ok impl)) :
    acqCount evs ≤ 1 ∧
    relCount evs = 0 ∧
    (dropImpl dbg t impl).2 = Outcome.ok () ∧
    relCount (dropImpl dbg t impl).1 = acqCount evs ∧
    acqCount (dropImpl dbg t impl).1 = 0 ∧
    acqCount (tryClone t env impl).1 = acqCount evs ∧
    relCount (tryClone t env impl).1 = 0 := by
  cases impl with
  | Direct h =>
    obtain ⟨hd, hacq⟩ := inc_ok_invariant hinc
    obtain ⟨hdec, hrel⟩ := dec_of_invariant (t := t) hd
    have hdrop := dropImpl_of_dec_ok dbg hdec
    have hrel0 : relCount evs = 0 := by
      have hz := inc_rel_zero t env raw
      rw [hinc] at hz
      exact hz
    refine ⟨?_, hrel0, ?_, ?_, ?_, ?_, ?_⟩
    · rw [hacq]; cases h <;> simp [acqNeed]
    · rw [hdrop]
    · rw [hdrop]; rw [hacq]; exact hrel
    · rw [hdrop]; exact dec_acq_zero t h
    · show acqCount (incRefcount t env h).1 = acqCount evs
      rw [hacq]; exact inc_acq_of_invariant env hd
    · show relCount (incRefcount t env h).1 = 0
      exact inc_rel_zero t env h
  | Wayland w =>
    obtain ⟨rfl, -, -⟩ := inc_ok_wayland hinc
    exact ⟨by simp [acqCount], by simp [relCount], rfl,
      by simp [dropImpl, acqCount, relCount], by simp [dropImpl, acqCount],
      by simp [tryClone, acqCount], by simp [tryClone, relCount]⟩

theorem acquire_release_balanced_witness :
    acqCount [Event.androidAcquire 5] ≤ 1 ∧
    relCount [Event.androidAcquire 5] = 0 ∧
    (dropImpl true androidTarget (Impl.Direct (RawWindowHandle.AndroidNdk 5))).2
      = Outcome.ok () ∧
    relCount (dropImpl true androidTarget (Impl.Direct (RawWindowHandle.AndroidNdk 5))).1
      = acqCount [Event.androidAcquire 5] ∧
    acqCount (dropImpl true androidTarget (Impl.Direct (RawWindowHandle.AndroidNdk 5))).1
      = 0 ∧
    acqCount (tryClone androidTarget env0 (Impl.Direct (RawWindowHandle.AndroidNdk 5))).1
      = acqCount [Event.androidAcquire 5] ∧
    relCount (tryClone androidTarget env0 (Impl.Direct (RawWindowHandle.AndroidNdk 5))).1
      = 0 :=
  acquire_release_balanced androidTarget env0 true (RawWindowHandle.AndroidNdk 5)
    [Event.androidAcquire 5] (Impl.Direct (RawWindowHandle.AndroidNdk 5)) rfl

/-- C4: construction fails with `PlatformMismatch{expected}` when the
handle's platform is compiled out, with `NotSupported` for unrecognized
kinds, and for Wayland handles with `WaylandNotEnabled` when the capability
is disabled or `WaylandNotRust` when the backend provenance check fails —
and in the provenance-failure cases the event list is empty, so no acquire
was performed. -/
theorem construction_error_taxonomy (t : Target) (env : Env) :
    (t.android = false → ∀ p, incRefcount t env (.AndroidNdk p)
      = ([], .err (.PlatformMismatch "android"))) ∧
    (t.apple = false → ∀ p,
      incRefcount t env (.AppKit p) = ([], .err (.PlatformMismatch "apple")) ∧
      incRefcount t env (.UiKit p) = ([], .err (.PlatformMismatch "apple"))) ∧
    (t.wasm = false → ∀ n,
      incRefcount t env (.Web n) = ([], .err (.PlatformMismatch "wasm")) ∧
      incRefcount t env (.WebCanvas n) = ([], .err (.PlatformMismatch "wasm")) ∧
      incRefcount t env (.WebOffscreenCanvas n) = ([], .err (.PlatformMismatch "wasm"))) ∧
    incRefcount t env .other = ([], .err (.Raw .NotSupported)) ∧
    (t.waylandEnabled = false → ∀ p, incRefcount t env (.Wayland p)
      = ([], .err .WaylandNotEnabled)) ∧
    (t.waylandEnabled = true → ∀ p, env.objectIdFromPtr p = none →
      incRefcount t env (.Wayland p) = ([], .err .WaylandNotRust)) ∧
    (t.waylandEnabled = true → ∀ p id, env.objectIdFromPtr p = some id →
      env.getDataOk (env.backendFromPtr p) id = false →
      incRefcount t env (.Wayland p) = ([], .err .WaylandNotRust)) := by
  refine ⟨fun ha p => ?_, fun ha p => ?_, fun ha n => ?_, rfl,
    fun hw p => ?_, fun hw p hid => ?_, fun hw p id hid hdata => ?_⟩ <;>
    simp [incRefcount, cloneHandle, cloneHandleDisabled, *]

theorem construction_error_taxonomy_witness :
    incRefcount linuxTarget env0 (RawWindowHandle.AndroidNdk 5)
      = ([], Outcome.err (Error.PlatformMismatch "android")) ∧
    incRefcount linuxTarget env0 RawWindowHandle.other
      = ([], Outcome.err (Error.Raw HandleError.NotSupported)) ∧
    incRefcount wasmTarget env0 (RawWindowHandle.Wayland 5)
      = ([], Outcome.err Error.WaylandNotEnabled) ∧
    incRefcount linuxTarget envNoData (RawWindowHandle.Wayland 5)
      = ([], Outcome.err Error.WaylandNotRust) :=
  ⟨(construction_error_taxonomy linuxTarget env0).1 rfl 5,
    (construction_error_taxonomy linuxTarget env0).2.2.2.1,
    (construction_error_taxonomy wasmTarget env0).2.2.2.2.1 rfl 5,
    (construction_error_taxonomy linuxTarget envNoData).2.2.2.2.2.2 rfl 5 5 rfl rfl⟩

/-- C5: cloning re-invokes `inc_refcount` on the stored payload for a
`Direct` instance (definitionally), copies the tracked backend+id pair
with no platform call for a Wayland instance, and — assuming the ObjC
contract that retain on a valid object never returns null — always
succeeds on any handle accepted by construction. -/
theorem try_clone_spec (t : Target) (env : Env) (raw : RawWindowHandle)
    (evs : List Event) (impl : Impl)
    (hret : ∀ p, env.retain p ≠ 0)
    (hinc : incRefcount t env raw = (evs, Outcome.ok impl)) :
    (∀ h, tryClone t env (Impl.Direct h) = incRefcount t env h) ∧
    (∀ w, tryClone t env (Impl.Wayland w) = ([], Outcome.ok (Impl.Wayland w))) ∧
    (∃ evs2 impl2, tryClone t env impl = (evs2, Outcome.ok impl2)) := by
  refine ⟨fun h => rfl, fun w => rfl, ?_⟩
  cases impl with
  | Direct h =>
    obtain ⟨hd, -⟩ := inc_ok_invariant hinc
    obtain ⟨evs2, h2, heq⟩ := clone_succeeds hd hret
    exact ⟨evs2, .Direct h2, heq⟩
  | Wayland w => exact ⟨[], .Wayland w, rfl⟩

theorem try_clone_spec_witness :
    tryClone appleTarget env1 (Impl.Direct (RawWindowHandle.AppKit 5))
      = incRefcount appleTarget env1 (RawWindowHandle.AppKit 5) ∧
    tryClone appleTarget env1 (Impl.Wayland ⟨1, 2⟩)
      = ([], Outcome.ok (Impl.Wayland ⟨1, 2⟩)) ∧
    (∃ evs2 impl2, tryClone appleTarget env1 (Impl.Direct (RawWindowHandle.AppKit 5))
      = (evs2, Outcome.ok impl2)) :=
  have ht := try_clone_spec appleTarget env1 (RawWindowHandle.AppKit 4)
    [Event.appleRetain 4] (Impl.Direct (RawWindowHandle.AppKit 5))
    (fun p => Nat.succ_ne_zero p) rfl
  ⟨ht.1 (RawWindowHandle.AppKit 5), ht.2.1 ⟨1, 2⟩, ht.2.2⟩

/-- C10: every `Direct` payload produced by a successful `inc_refcount` is
neither the `Wayland` nor the `Web` id variant (nor an unanticipated one),
so `dec_refcount` on it — on the same target — returns `Ok(())`: the
`unreachable!` arms, the `NotSupported` branch and the debug-mode panic in
`Drop` are never reached from an acquired handle. -/
theorem direct_release_total (t : Target) (env : Env) (raw : RawWindowHandle)
    (evs : List Event) (h : RawWindowHandle)
    (hinc : incRefcount t env raw = (evs, Outcome.ok (Impl.Direct h))) :
    (∀ p, h ≠ RawWindowHandle.Wayland p) ∧
    (∀ i, h ≠ RawWindowHandle.Web i) ∧
    h ≠ RawWindowHandle.other ∧
    (decRefcount t h).2 = Outcome.ok () ∧
    (∀ dbg, (dropImpl dbg t (Impl.Direct h)).2 = Outcome.ok ()) := by
  obtain ⟨hd, -⟩ := inc_ok_invariant hinc
  obtain ⟨hok, -⟩ := dec_of_invariant (t := t) hd
  refine ⟨?_, ?_, ?_, hok, fun dbg => ?_⟩
  · intro p hp; subst hp; simp [directInvariant] at hd
  · intro i hp; subst hp; simp [directInvariant] at hd
  · intro hp; subst hp; simp [directInvariant] at hd
  · rw [dropImpl_of_dec_ok dbg hok]

theorem direct_release_total_witness :
    RawWindowHandle.WebCanvas 4 ≠ RawWindowHandle.Wayland 0 ∧
    RawWindowHandle.WebCanvas 4 ≠ RawWindowHandle.Web 0 ∧
    (decRefcount wasmTarget (RawWindowHandle.WebCanvas 4)).2 = Outcome.ok () ∧
    (dropImpl true wasmTarget (Impl.Direct (RawWindowHandle.WebCanvas 4))).2
      = Outcome.ok () :=
  have ht := direct_release_total wasmTarget env0 (RawWindowHandle.WebCanvas 3)
    [Event.webAcquire 4] (RawWindowHandle.WebCanvas 4) rfl
  ⟨ht.1 0, ht.2.1 0, ht.2.2.2.1, ht.2.2.2.2 true⟩

end OwnedWH
